import Mathlib

/-!
Verification of the peer frame dispatcher of `server/peer_request.go`
(`LocalPeer.onRequest`).

The Go function is shallowly embedded as a pure Lean function: external
collaborators (membership directory, reliable transport, party registry,
match registry, local handler) are modelled as oracles gathered in an
`Env` record, and the dispatcher returns a trace of the effects it
performed (registry calls, local-handler calls, and every call to the
response-writer closure `w` together with that call's outcome).
A nil-pointer dereference of the Go code is modelled as the `.error`
branch of an `Except GoPanic` result.
-/

/-- A 128-bit UUID value, modelling `uuid.UUID` of gofrs/uuid.  The value
is the big-endian integer formed by the 16 bytes. -/
structure UUID where
  val : Nat
  deriving DecidableEq, Repr

/-- The nil (all-zero) UUID, `uuid.Nil`. -/
def uuidNil : UUID := ⟨0⟩

/-- Hexadecimal value of a character, `none` when not a hex digit. -/
def hexVal (c : Char) : Option Nat :=
  if '0' ≤ c ∧ c ≤ '9' then some (c.toNat - '0'.toNat)
  else if 'a' ≤ c ∧ c ≤ 'f' then some (c.toNat - 'a'.toNat + 10)
  else if 'A' ≤ c ∧ c ≤ 'F' then some (c.toNat - 'A'.toNat + 10)
  else none

/-- Is index `i` one of the hyphen positions of a canonical UUID string? -/
def uuidHyphenPos (i : Nat) : Bool :=
  i == 8 || i == 13 || i == 18 || i == 23

/-- Model of `decodeHashLike` of gofrs/uuid v5: 32 hexadecimal
characters with no separators. -/
def decodeHashLike (cs : List Char) : Option UUID :=
  if cs.length == 32 && cs.all (fun c => (hexVal c).isSome) then
    some ⟨cs.foldl (fun acc c => acc * 16 + (hexVal c).getD 0) 0⟩
  else none

/-- Model of `decodeCanonical` of gofrs/uuid v5: the
`xxxxxxxx-xxxx-xxxx-xxxx-xxxxxxxxxxxx` format, 36 characters with
hyphens at positions 8, 13, 18, 23 and hex digits elsewhere. -/
def decodeCanonical (cs : List Char) : Option UUID :=
  if cs.length == 36 &&
      cs.enum.all (fun p =>
        if uuidHyphenPos p.1 then p.2 == '-' else (hexVal p.2).isSome) then
    some ⟨((cs.enum.filter (fun p => !uuidHyphenPos p.1)).map Prod.snd).foldl
      (fun acc c => acc * 16 + (hexVal c).getD 0) 0⟩
  else none

/-- Model of `decodePlain` of gofrs/uuid v5: hashlike for 32 characters,
canonical for 36, an error otherwise. -/
def decodePlain (cs : List Char) : Option UUID :=
  if cs.length == 32 then decodeHashLike cs
  else if cs.length == 36 then decodeCanonical cs
  else none

/-- Model of `decodeBraced` of gofrs/uuid v5: an opening brace, a plain
(hashlike or canonical) form, and a closing brace. -/
def decodeBraced (cs : List Char) : Option UUID :=
  if cs.head? == some '\x7b' && cs.getLast? == some '\x7d' then
    decodePlain ((cs.drop 1).dropLast)
  else none

/-- The `urn:uuid:` prefix of the URN forms. -/
def urnUuidPrefix : List Char := ['u', 'r', 'n', ':', 'u', 'u', 'i', 'd', ':']

/-- Model of `decodeURN` of gofrs/uuid v5: the literal prefix
`urn:uuid:` followed by a plain (hashlike or canonical) form. -/
def decodeURN (cs : List Char) : Option UUID :=
  if cs.take 9 == urnUuidPrefix then decodePlain (cs.drop 9) else none

/-- Model of `uuid.FromString` of gofrs/uuid v5 (via `UnmarshalText`),
which dispatches on the string's length and accepts six formats: the
32-character hashlike form, the braced forms of length 34 and 38, the
36-character canonical form, and the `urn:uuid:` forms of length 41 and
45; every other string is an error. -/
def uuidFromString (s : String) : Option UUID :=
  let cs := s.toList
  if cs.length == 32 then decodeHashLike cs
  else if cs.length == 34 || cs.length == 38 then decodeBraced cs
  else if cs.length == 36 then decodeCanonical cs
  else if cs.length == 41 || cs.length == 45 then decodeURN cs
  else none

/-- Model of `uuid.FromStringOrNil`: parse, and on failure return the nil
UUID instead of an error. -/
def uuidFromStringOrNil (s : String) : UUID :=
  (uuidFromString s).getD uuidNil

/-- Lowercase hexadecimal digit character for `n < 16`. -/
def hexDigitChar (n : Nat) : Char :=
  if n < 10 then Char.ofNat ('0'.toNat + n) else Char.ofNat ('a'.toNat + n - 10)

/-- Big-endian lowercase hexadecimal rendering of `v` with a fixed digit
count. -/
def toHexDigits (v : Nat) : Nat → List Char
  | 0 => []
  | n + 1 => toHexDigits (v / 16) n ++ [hexDigitChar (v % 16)]

/-- Model of `uuid.UUID.String()`: canonical lowercase rendering. -/
def uuidToString (u : UUID) : String :=
  let d := toHexDigits u.val 32
  String.mk (d.take 8 ++ ['-'] ++ ((d.drop 8).take 4) ++ ['-'] ++
    ((d.drop 12).take 4) ++ ['-'] ++ ((d.drop 16).take 4) ++ ['-'] ++ d.drop 20)

/-- Split a character list at its first `'.'`: the characters before it
and the characters after it, or `none` when no dot occurs. -/
def breakAtDot : List Char → Option (List Char × List Char)
  | [] => none
  | c :: cs =>
    if c = '.' then some ([], cs)
    else
      match breakAtDot cs with
      | none => none
      | some (pre, post) => some (c :: pre, post)

/-- Model of Go `strings.SplitN(s, ".", 2)`: at most two components, the
second being everything after the first dot; the whole string when it
contains no dot. -/
def splitN2Dot (s : String) : List String :=
  match breakAtDot s.toList with
  | none => [s]
  | some (pre, post) => [String.mk pre, String.mk post]

/-- The namespace suffix of a match identifier: everything after the first
dot of the `<opaque-id>.<owning-node-name>` form, `none` when the
identifier contains no dot. -/
def matchIdSuffix (s : String) : Option String :=
  match splitN2Dot s with
  | [_, suffix] => some suffix
  | _ => none

/-- gRPC status codes used by this core (`google.golang.org/grpc/codes`);
codes other than the two synthesized by the dispatcher are collapsed
into `other`. -/
inductive StatusCode where
  | notFound
  | aborted
  | other (n : Nat)
  deriving DecidableEq, Repr

/-- A Go `error` as produced by `status.Error(code, msg)` or a registry. -/
structure Err where
  code : StatusCode
  message : String
  deriving DecidableEq, Repr

/-- Model of `status.Error`. -/
def statusError (code : StatusCode) (message : String) : Err := ⟨code, message⟩

/-- Wire error envelope (`rtapi.Envelope` carrying an error). -/
structure Envelope where
  code : StatusCode
  message : String
  deriving DecidableEq, Repr

/-- Modelled from the spec: `newEnvelopeError` is repository code outside
`src/`; per the spec, a domain error is "wrapped unmodified into an error
envelope", the original error type not exposed — modelled as a faithful
copy of the error's code and message into the envelope. -/
def newEnvelopeError (e : Err) : Envelope := ⟨e.code, e.message⟩

/-- Opaque `rtapi.Envelope` payload of a generic `Out` request. -/
structure OutEnvelope where
  tag : Nat
  deriving DecidableEq, Repr

/-- Opaque single-socket enforcement message. -/
structure SingleSocketMsg where
  tag : Nat
  deriving DecidableEq, Repr

/-- Opaque forced-disconnect message. -/
structure DisconnectMsg where
  tag : Nat
  deriving DecidableEq, Repr

/-- Opaque wire presence-stream descriptor (`pb.PresenceStream`). -/
structure PbPresenceStream where
  tag : Nat
  deriving DecidableEq, Repr

/-- Opaque wire presence metadata (`pb.PresenceMeta`). -/
structure PbPresenceMeta where
  tag : Nat
  deriving DecidableEq, Repr

/-- Wire presence carried by a PartyJoinRequest (`pb.Presence`): scalar
fields plus the repeated stream/meta collections. -/
structure PbPresence where
  userID : String
  sessionID : String
  node : String
  stream : List PbPresenceStream
  meta : List PbPresenceMeta
  deriving DecidableEq, Repr

/-- Wire user presence (`pb.UserPresence` / `rtapi.UserPresence` field
set used by this dispatcher). -/
structure PbUserPresence where
  userId : String
  sessionId : String
  username : String
  persistence : Bool
  status : String
  deriving DecidableEq, Repr

/-- Wire presence identifier (`pb.PresenceID`); the session identifier is
already rendered as a string on the wire. -/
structure PbPresenceID where
  node : String
  sessionID : String
  deriving DecidableEq, Repr

/-- Wire match presence (`pb.MatchPresence`). -/
structure PbMatchPresence where
  userId : String
  sessionId : String
  username : String
  node : String
  reason : Nat
  deriving DecidableEq, Repr

/-- Wire user presence of the MatchState reply (`rtapi.UserPresence`). -/
structure RtUserPresence where
  userId : String
  sessionId : String
  username : String
  persistence : Bool
  status : String
  deriving DecidableEq, Repr

/-- Opaque match descriptor returned by `MatchRegistry.GetMatch`. -/
structure MatchDescr where
  tag : Nat
  deriving DecidableEq, Repr

/-- Server-side presence stream. -/
structure PresenceStream where
  tag : Nat
  deriving DecidableEq, Repr

/-- Server-side presence metadata. -/
structure PresenceMeta where
  tag : Nat
  deriving DecidableEq, Repr

/-- Modelled from the spec: `pb2PresenceStream` is repository code outside
`src/`; the spec says the built Presence's Stream "reflects exactly the
first entry" of the repeated stream field, so the conversion is modelled
as a faithful copy of the wire value. -/
def pb2PresenceStream (s : PbPresenceStream) : PresenceStream := ⟨s.tag⟩

/-- Modelled from the spec: `pb2PresenceMeta` is repository code outside
`src/`; modelled as a faithful copy of the wire value, like
`pb2PresenceStream`. -/
def pb2PresenceMeta (m : PbPresenceMeta) : PresenceMeta := ⟨m.tag⟩

/-- Server-side presence identifier (`PresenceID`). -/
structure PresenceID where
  node : String
  sessionID : UUID
  deriving DecidableEq, Repr

/-- Server-side `Presence` built by the PartyJoinRequest case; Stream and
Meta are unset (`none`) unless the corresponding repeated wire field is
non-empty. -/
structure Presence where
  id : PresenceID
  userID : UUID
  stream : Option PresenceStream := none
  meta : Option PresenceMeta := none
  deriving DecidableEq, Repr

/-- Party operation message shared by PartyPromote / PartyAccept /
PartyRemove (`Id`, `SessionID`, `FromNode`, `UserPresence`). -/
structure PartyOpMsg where
  id : String
  sessionID : String
  fromNode : String
  userPresence : PbUserPresence
  deriving DecidableEq, Repr

/-- Party operation message with no user presence, shared by PartyClose
and PartyJoinRequestList. -/
structure PartyCloseMsg where
  id : String
  sessionID : String
  fromNode : String
  deriving DecidableEq, Repr

/-- PartyMatchmakerAdd wire message; the string/numeric property maps are
opaque to the dispatcher and modelled as opaque values. -/
structure PartyMatchmakerAddMsg where
  id : String
  sessionID : String
  fromNode : String
  query : String
  minCount : Int
  maxCount : Int
  countMultiple : Int
  stringProperties : String
  numericProperties : String
  deriving DecidableEq, Repr

/-- PartyMatchmakerRemove wire message. -/
structure PartyMatchmakerRemoveMsg where
  id : String
  sessionID : String
  fromNode : String
  ticket : String
  deriving DecidableEq, Repr

/-- PartyDataSend wire message. -/
structure PartyDataSendMsg where
  id : String
  sessionID : String
  fromNode : String
  opCode : Int
  data : List Nat
  deriving DecidableEq, Repr

/-- MatchJoinAttempt wire message; `vars` and `metadata` are opaque. -/
structure MatchJoinAttemptMsg where
  id : String
  userId : String
  sessionId : String
  username : String
  sessionExpiry : Int
  vars : String
  clientIP : String
  clientPort : String
  metadata : String
  deriving DecidableEq, Repr

/-- MatchSendData wire message. -/
structure MatchSendDataMsg where
  id : String
  userId : String
  sessionId : String
  username : String
  fromNode : String
  opCode : Int
  data : List Nat
  reliable : Bool
  receiveTime : Int
  deriving DecidableEq, Repr

/-- The `pb.Request` oneof: one constructor per request kind handled by
the dispatcher, plus `unknown` for an unset or unrecognized variant
(the `default:` case of the switch). -/
inductive Request where
  | ping
  | out (envelope : OutEnvelope)
  | singleSocket (msg : SingleSocketMsg)
  | disconnect (msg : DisconnectMsg)
  | partyJoinRequest (id : String) (presence : PbPresence)
  | partyPromote (msg : PartyOpMsg)
  | partyAccept (msg : PartyOpMsg)
  | partyRemove (msg : PartyOpMsg)
  | partyClose (msg : PartyCloseMsg)
  | partyJoinRequestList (msg : PartyCloseMsg)
  | partyMatchmakerAdd (msg : PartyMatchmakerAddMsg)
  | partyMatchmakerRemove (msg : PartyMatchmakerRemoveMsg)
  | partyDataSend (msg : PartyDataSendMsg)
  | matchId (id : String)
  | matchJoinAttempt (msg : MatchJoinAttemptMsg)
  | matchSendData (msg : MatchSendDataMsg)
  | matchSignal (id : String) (data : String)
  | matchState (id : String)
  | unknown
  deriving DecidableEq, Repr

/-- The `pb.ResponseWriter` oneof; `empty` is the bare
`&pb.ResponseWriter{}` acknowledgement with no payload variant set.
`mathJoinAttempt` keeps the source's field name `MathJoinAttempt`. -/
inductive ResponseWriter where
  | empty
  | pong (s : String)
  | envelope (e : Envelope)
  | partyJoinRequest (ok : Bool)
  | partyJoinRequestList (l : List PbUserPresence)
  | partyMatchmakerAdd (ticket : String) (presenceIDs : List PbPresenceID)
  | matchDescr (m : MatchDescr)
  | mathJoinAttempt (found allow isNew : Bool) (reason label : String)
      (presences : List PbMatchPresence)
  | matchSignal (v : String)
  | matchState (presences : List RtUserPresence) (tick : Int) (state : List Nat)
  deriving DecidableEq, Repr

/-- The `pb.Frame` payload oneof: a Request, a ResponseWriter, or unset. -/
inductive FramePayload where
  | request (r : Request)
  | responseWriter (w : ResponseWriter)
  | unset
  deriving DecidableEq, Repr

/-- The `pb.Frame` envelope exchanged between nodes. -/
structure Frame where
  id : String
  inbox : String
  node : String
  timestamp : Nat
  payload : FramePayload
  deriving DecidableEq, Repr

/-- Model of the generated getter `frame.GetRequest()`: the Request when
the payload holds one, otherwise the nil pointer (`none`). -/
def Frame.getRequest (f : Frame) : Option Request :=
  match f.payload with
  | .request r => some r
  | _ => none

/-- A membership-directory endpoint (`s.members.Load` result). -/
structure Endpoint where
  name : String
  deriving DecidableEq, Repr

/-- Registry-side match presence as returned by `JoinAttempt` (accessed
through `GetUserId` / `GetSessionId` / `GetUsername` / `GetNodeId` /
`GetReason`). -/
structure MatchPresenceVal where
  userId : String
  sessionId : String
  username : String
  nodeId : String
  reason : Nat
  deriving DecidableEq, Repr

/-- Registry-side user presence as returned by `GetState` (accessed
through `GetUserId` / `GetSessionId` / `GetUsername` / `GetPersistence` /
`GetStatus`). -/
structure UserPresenceVal where
  userId : String
  sessionId : String
  username : String
  persistence : Bool
  status : String
  deriving DecidableEq, Repr

/-- Presence identifier returned by `PartyMatchmakerAdd` (node name and a
UUID session identifier, rendered with `String()` for the wire). -/
structure PresenceIdVal where
  node : String
  sessionID : UUID
  deriving DecidableEq, Repr

/-- Result tuple of `JoinAttempt` (found, allow, isNew, reason, label,
presences); the Go signature has no error component. -/
structure JoinAttemptRes where
  found : Bool
  allow : Bool
  isNew : Bool
  reason : String
  label : String
  presences : List MatchPresenceVal
  deriving DecidableEq, Repr

/-- Environment of external collaborators: the local node identity, the
membership directory, the fresh UUID and clock oracles, serialization and
reliable transport, and the outcome each registry method would report for
this dispatch.  Registry outcomes are oracles fixed per environment; the
arguments actually passed are recorded in the dispatch trace instead. -/
structure Env where
  localName : String
  members : String → Option Endpoint
  freshId : String
  now : Nat
  marshal : Frame → Except String (List Nat)
  send : Endpoint → List Nat → Option String
  partyJoinRequestRes : Except Err Bool
  partyPromoteRes : Option Err
  partyAcceptRes : Option Err
  partyRemoveRes : Option Err
  partyCloseRes : Option Err
  partyJoinRequestListRes : Except Err (List PbUserPresence)
  partyMatchmakerAddRes : Except Err (String × List PresenceIdVal)
  partyMatchmakerRemoveRes : Option Err
  partyDataSendRes : Option Err
  getMatchRes : Except Err MatchDescr
  joinAttemptRes : JoinAttemptRes
  signalRes : Except Err String
  getStateRes : Except Err (List UserPresenceVal × Int × List Nat)

/-- One call into a domain registry, with the arguments the dispatcher
passed (the local node name argument is always `s.endpoint.Name()` except
where the source passes `frame.Node`, recorded as such). -/
inductive RegistryCall where
  | partyJoinRequest (id : UUID) (node : String) (presence : Presence)
  | partyPromote (id : UUID) (node sessionID fromNode : String) (p : PbUserPresence)
  | partyAccept (id : UUID) (node sessionID fromNode : String) (p : PbUserPresence)
  | partyRemove (id : UUID) (node sessionID fromNode : String) (p : PbUserPresence)
  | partyClose (id : UUID) (node sessionID fromNode : String)
  | partyJoinRequestList (id : UUID) (node sessionID fromNode : String)
  | partyMatchmakerAdd (id : UUID) (node sessionID fromNode query : String)
      (minCount maxCount countMultiple : Int) (stringProps numProps : String)
  | partyMatchmakerRemove (id : UUID) (node sessionID fromNode ticket : String)
  | partyDataSend (id : UUID) (node sessionID fromNode : String) (opCode : Int)
      (data : List Nat)
  | getMatch (id : String)
  | joinAttempt (id : UUID) (node : String) (userId sessionId : UUID)
      (username : String) (sessionExpiry : Int) (vars clientIP clientPort : String)
      (fromNode : String) (metadata : String)
  | sendData (id : UUID) (node : String) (userId sessionId : UUID)
      (username fromNode : String) (opCode : Int) (data : List Nat)
      (reliable : Bool) (receiveTime : Int)
  | signal (id : String) (data : String)
  | getState (id : UUID) (node : String)
  deriving DecidableEq, Repr

/-- One call into a local subsystem (handler, single-socket, disconnect). -/
inductive HandlerCall where
  | out (envelope : OutEnvelope)
  | singleSocket (msg : SingleSocketMsg)
  | disconnect (msg : DisconnectMsg)
  deriving DecidableEq, Repr

instance {ε α : Type} [DecidableEq ε] [DecidableEq α] :
    DecidableEq (Except ε α) := fun a b =>
  match a, b with
  | .ok x, .ok y =>
    if h : x = y then .isTrue (by rw [h]) else .isFalse (by simp [h])
  | .error x, .error y =>
    if h : x = y then .isTrue (by rw [h]) else .isFalse (by simp [h])
  | .ok _, .error _ => .isFalse (by simp)
  | .error _, .ok _ => .isFalse (by simp)

/-- Outcome of one invocation of the response-writer closure `w`:
`respFrame` is the response frame constructed and handed to serialization
(`none` when no frame was built, hence no serialization attempted),
`sendAttempt` the endpoint and bytes handed to the reliable transport
(`none` when no send was attempted), `result` the error `w` returned. -/
structure WriteOutcome where
  respFrame : Option Frame
  sendAttempt : Option (Endpoint × List Nat)
  result : Except Err Unit
  deriving DecidableEq, Repr

/-- Embedding of the closure `w` of `onRequest`: emit nothing for an empty
inbox; resolve the originating node, abort when absent; otherwise build a
fresh response frame, serialize it, and hand it to the reliable transport,
translating each failure into an Aborted status error. -/
def writeResponse (env : Env) (frame : Frame) (response : ResponseWriter) :
    WriteOutcome :=
  if frame.inbox.length < 1 then
    ⟨none, none, .ok ()⟩
  else
    match env.members frame.node with
    | none => ⟨none, none, .error (statusError .aborted "the remote node does not exist")⟩
    | some endpoint =>
      let f : Frame := ⟨env.freshId, frame.inbox, env.localName, env.now,
        .responseWriter response⟩
      match env.marshal f with
      | .error msg => ⟨some f, none, .error (statusError .aborted msg)⟩
      | .ok b =>
        match env.send endpoint b with
        | some msg => ⟨some f, some (endpoint, b), .error (statusError .aborted msg)⟩
        | none => ⟨some f, some (endpoint, b), .ok ()⟩

/-- The effect trace of one dispatch: registry calls, local-subsystem
calls, and each ResponseWriter handed to `w` with that call's outcome. -/
structure DispatchResult where
  registryCalls : List RegistryCall
  handlerCalls : List HandlerCall
  writes : List (ResponseWriter × WriteOutcome)
  deriving DecidableEq, Repr

/-- A Go runtime fault of the dispatcher. -/
inductive GoPanic where
  | nilPointerDereference
  deriving DecidableEq, Repr

/-- The Presence built by the PartyJoinRequest case: identifiers parsed
with `uuid.FromStringOrNil`, Stream/Meta set from index 0 of the repeated
wire collections only when those are non-empty. -/
def buildPresence (p : PbPresence) : Presence :=
  let base : Presence :=
    { id := ⟨p.node, uuidFromStringOrNil p.sessionID⟩,
      userID := uuidFromStringOrNil p.userID }
  let base :=
    match p.stream with
    | s :: _ => { base with stream := some (pb2PresenceStream s) }
    | [] => base
  match p.meta with
  | m :: _ => { base with meta := some (pb2PresenceMeta m) }
  | [] => base

/-- Embedding of `LocalPeer.onRequest`: switch on the Request variant,
invoke the matching registry oracle, and hand at most one ResponseWriter
to `w`.  `frame.GetRequest()` is nil when the payload is not a Request;
the subsequent `request.Payload` field access then dereferences a nil
pointer, modelled as `.error .nilPointerDereference`. -/
def onRequest (env : Env) (frame : Frame) : Except GoPanic DispatchResult :=
  let w := fun (response : ResponseWriter) => writeResponse env frame response
  match frame.getRequest with
  | none => .error .nilPointerDereference
  | some request =>
    match request with
    | .ping =>
      let rw := ResponseWriter.pong "PONG"
      .ok ⟨[], [], [(rw, w rw)]⟩
    | .out e => .ok ⟨[], [.out e], []⟩
    | .singleSocket m => .ok ⟨[], [.singleSocket m], []⟩
    | .disconnect m => .ok ⟨[], [.disconnect m], []⟩
    | .partyJoinRequest pid p =>
      let presence := buildPresence p
      let call := RegistryCall.partyJoinRequest (uuidFromStringOrNil pid)
        env.localName presence
      match env.partyJoinRequestRes with
      | .error e =>
        let rw := ResponseWriter.envelope (newEnvelopeError e)
        .ok ⟨[call], [], [(rw, w rw)]⟩
      | .ok okFlag =>
        let rw := ResponseWriter.partyJoinRequest okFlag
        .ok ⟨[call], [], [(rw, w rw)]⟩
    | .partyPromote m =>
      let call := RegistryCall.partyPromote (uuidFromStringOrNil m.id)
        env.localName m.sessionID m.fromNode m.userPresence
      match env.partyPromoteRes with
      | some e =>
        let rw := ResponseWriter.envelope (newEnvelopeError e)
        .ok ⟨[call], [], [(rw, w rw)]⟩
      | none => .ok ⟨[call], [], [(ResponseWriter.empty, w ResponseWriter.empty)]⟩
    | .partyAccept m =>
      let call := RegistryCall.partyAccept (uuidFromStringOrNil m.id)
        env.localName m.sessionID m.fromNode m.userPresence
      match env.partyAcceptRes with
      | some e =>
        let rw := ResponseWriter.envelope (newEnvelopeError e)
        .ok ⟨[call], [], [(rw, w rw)]⟩
      | none => .ok ⟨[call], [], [(ResponseWriter.empty, w ResponseWriter.empty)]⟩
    | .partyRemove m =>
      let call := RegistryCall.partyRemove (uuidFromStringOrNil m.id)
        env.localName m.sessionID m.fromNode m.userPresence
      match env.partyRemoveRes with
      | some e =>
        let rw := ResponseWriter.envelope (newEnvelopeError e)
        .ok ⟨[call], [], [(rw, w rw)]⟩
      | none => .ok ⟨[call], [], [(ResponseWriter.empty, w ResponseWriter.empty)]⟩
    | .partyClose m =>
      let call := RegistryCall.partyClose (uuidFromStringOrNil m.id)
        env.localName m.sessionID m.fromNode
      match env.partyCloseRes with
      | some e =>
        let rw := ResponseWriter.envelope (newEnvelopeError e)
        .ok ⟨[call], [], [(rw, w rw)]⟩
      | none => .ok ⟨[call], [], [(ResponseWriter.empty, w ResponseWriter.empty)]⟩
    | .partyJoinRequestList m =>
      let call := RegistryCall.partyJoinRequestList (uuidFromStringOrNil m.id)
        env.localName m.sessionID m.fromNode
      match env.partyJoinRequestListRes with
      | .error e =>
        let rw := ResponseWriter.envelope (newEnvelopeError e)
        .ok ⟨[call], [], [(rw, w rw)]⟩
      | .ok list =>
        let rw := ResponseWriter.partyJoinRequestList list
        .ok ⟨[call], [], [(rw, w rw)]⟩
    | .partyMatchmakerAdd m =>
      let call := RegistryCall.partyMatchmakerAdd (uuidFromStringOrNil m.id)
        env.localName m.sessionID m.fromNode m.query m.minCount m.maxCount
        m.countMultiple m.stringProperties m.numericProperties
      match env.partyMatchmakerAddRes with
      | .error e =>
        let rw := ResponseWriter.envelope (newEnvelopeError e)
        .ok ⟨[call], [], [(rw, w rw)]⟩
      | .ok (ticket, ids) =>
        let presenceIDs := ids.map fun v =>
          PbPresenceID.mk v.node (uuidToString v.sessionID)
        let rw := ResponseWriter.partyMatchmakerAdd ticket presenceIDs
        .ok ⟨[call], [], [(rw, w rw)]⟩
    | .partyMatchmakerRemove m =>
      let call := RegistryCall.partyMatchmakerRemove (uuidFromStringOrNil m.id)
        env.localName m.sessionID m.fromNode m.ticket
      match env.partyMatchmakerRemoveRes with
      | some e =>
        let rw := ResponseWriter.envelope (newEnvelopeError e)
        .ok ⟨[call], [], [(rw, w rw)]⟩
      | none => .ok ⟨[call], [], [(ResponseWriter.empty, w ResponseWriter.empty)]⟩
    | .partyDataSend m =>
      let call := RegistryCall.partyDataSend (uuidFromStringOrNil m.id)
        env.localName m.sessionID m.fromNode m.opCode m.data
      match env.partyDataSendRes with
      | some e =>
        let rw := ResponseWriter.envelope (newEnvelopeError e)
        .ok ⟨[call], [], [(rw, w rw)]⟩
      | none => .ok ⟨[call], [], [(ResponseWriter.empty, w ResponseWriter.empty)]⟩
    | .matchId id =>
      let idComponents := splitN2Dot id
      if idComponents.length ≠ 2 ∨ idComponents[1]! ≠ env.localName then
        let rw := ResponseWriter.envelope
          (newEnvelopeError (statusError .notFound "Not Found"))
        .ok ⟨[], [], [(rw, w rw)]⟩
      else
        let call := RegistryCall.getMatch id
        match env.getMatchRes with
        | .error e =>
          let rw := ResponseWriter.envelope (newEnvelopeError e)
          .ok ⟨[call], [], [(rw, w rw)]⟩
        | .ok m =>
          let rw := ResponseWriter.matchDescr m
          .ok ⟨[call], [], [(rw, w rw)]⟩
    | .matchJoinAttempt m =>
      let call := RegistryCall.joinAttempt (uuidFromStringOrNil m.id)
        env.localName (uuidFromStringOrNil m.userId)
        (uuidFromStringOrNil m.sessionId) m.username m.sessionExpiry m.vars
        m.clientIP m.clientPort frame.node m.metadata
      let r := env.joinAttemptRes
      let matchPresences := r.presences.map fun v =>
        PbMatchPresence.mk v.userId v.sessionId v.username v.nodeId v.reason
      let rw := ResponseWriter.mathJoinAttempt r.found r.allow r.isNew r.reason
        r.label matchPresences
      .ok ⟨[call], [], [(rw, w rw)]⟩
    | .matchSendData m =>
      let call := RegistryCall.sendData (uuidFromStringOrNil m.id)
        env.localName (uuidFromStringOrNil m.userId)
        (uuidFromStringOrNil m.sessionId) m.username m.fromNode m.opCode
        m.data m.reliable m.receiveTime
      .ok ⟨[call], [], []⟩
    | .matchSignal sigId sigData =>
      let idComponents := splitN2Dot sigId
      if idComponents.length ≠ 2 ∨ idComponents[1]! ≠ env.localName then
        let rw := ResponseWriter.envelope
          (newEnvelopeError (statusError .notFound "Not Found"))
        .ok ⟨[], [], [(rw, w rw)]⟩
      else
        let call := RegistryCall.signal sigId sigData
        match env.signalRes with
        | .error e =>
          let rw := ResponseWriter.envelope (newEnvelopeError e)
          .ok ⟨[call], [], [(rw, w rw)]⟩
        | .ok v =>
          let rw := ResponseWriter.matchSignal v
          .ok ⟨[call], [], [(rw, w rw)]⟩
    | .matchState id =>
      let call := RegistryCall.getState (uuidFromStringOrNil id) env.localName
      match env.getStateRes with
      | .error e =>
        let rw := ResponseWriter.envelope (newEnvelopeError e)
        .ok ⟨[call], [], [(rw, w rw)]⟩
      | .ok (userPresence, tick, st) =>
        let presences := userPresence.map fun v =>
          RtUserPresence.mk v.userId v.sessionId v.username v.persistence v.status
        let rw := ResponseWriter.matchState presences tick st
        .ok ⟨[call], [], [(rw, w rw)]⟩
    | .unknown => .ok ⟨[], [], []⟩

/-- The NOT_FOUND error envelope synthesized by the dispatcher on a match
namespace mismatch. -/
def notFoundRW : ResponseWriter :=
  ResponseWriter.envelope (newEnvelopeError (statusError .notFound "Not Found"))

/-- A concrete environment used to evaluate the dispatcher on closed
inputs: the local node is `n1`, the membership directory knows exactly
the node `n2`, serialization and the transport succeed, and every
registry oracle succeeds. -/
def envBase : Env where
  localName := "n1"
  members := fun nm => if nm = "n2" then some ⟨"n2"⟩ else none
  freshId := "fresh-id"
  now := 7
  marshal := fun _ => .ok [1, 2]
  send := fun _ _ => none
  partyJoinRequestRes := .ok true
  partyPromoteRes := none
  partyAcceptRes := none
  partyRemoveRes := none
  partyCloseRes := none
  partyJoinRequestListRes := .ok []
  partyMatchmakerAddRes := .ok ("T1", [])
  partyMatchmakerRemoveRes := none
  partyDataSendRes := none
  getMatchRes := .ok ⟨5⟩
  joinAttemptRes := ⟨true, true, false, "", "lbl", []⟩
  signalRes := .ok "sig"
  getStateRes := .ok ([], 3, [9])

/-- A MatchJoinAttempt message whose match identifier `m.n2` carries the
namespace suffix `n2`, different from the local node name `n1`. -/
def jaC2 : MatchJoinAttemptMsg := ⟨"m.n2", "u", "s", "alice", 0, "v", "ip", "port", "md"⟩

/-- A frame carrying `jaC2`, originating from node `n2`. -/
def frC2 : Frame := ⟨"f1", "ib", "n2", 0, .request (.matchJoinAttempt jaC2)⟩

/-- The dispatch trace of `frC2` under `envBase`. -/
def resC2 : DispatchResult :=
  ⟨[RegistryCall.joinAttempt uuidNil "n1" uuidNil uuidNil "alice" 0
      "v" "ip" "port" "n2" "md"], [],
    [(ResponseWriter.mathJoinAttempt true true false "" "lbl" [],
      ⟨some ⟨"fresh-id", "ib", "n1", 7,
        .responseWriter (ResponseWriter.mathJoinAttempt true true false "" "lbl" [])⟩,
       some (⟨"n2"⟩, [1, 2]), .ok ()⟩)]⟩

/-- A Ping frame whose inbox is empty. -/
def frC4 : Frame := ⟨"f", "", "n2", 0, .request .ping⟩

/-- The dispatch trace of `frC4` under `envBase`. -/
def resC4 : DispatchResult := ⟨[], [], [(.pong "PONG", ⟨none, none, .ok ()⟩)]⟩

/-- A wire presence with exactly one stream entry and one meta entry. -/
def pC8 : PbPresence := ⟨"u", "s", "nodeP", [⟨10⟩], [⟨20⟩]⟩

/-- The dispatch trace of a PartyJoinRequest carrying `pC8` under
`envBase`. -/
def resC8 : DispatchResult :=
  ⟨[RegistryCall.partyJoinRequest uuidNil "n1"
      ⟨⟨"nodeP", uuidNil⟩, uuidNil, some ⟨10⟩, some ⟨20⟩⟩],
    [],
    [(ResponseWriter.partyJoinRequest true,
      ⟨some ⟨"fresh-id", "ib", "n1", 7, .responseWriter (ResponseWriter.partyJoinRequest true)⟩,
       some (⟨"n2"⟩, [1, 2]), .ok ()⟩)]⟩

/-- The dispatch trace of a MatchState request with a malformed match id
under `envBase`. -/
def resC10 : DispatchResult :=
  ⟨[RegistryCall.getState uuidNil "n1"], [],
    [(ResponseWriter.matchState [] 3 [9],
      ⟨some ⟨"fresh-id", "ib", "n1", 7, .responseWriter (ResponseWriter.matchState [] 3 [9])⟩,
       some (⟨"n2"⟩, [1, 2]), .ok ()⟩)]⟩

/-- The namespace guard of the MatchId / MatchSignal cases, as the source
writes it, holds exactly when the identifier's namespace suffix differs
from (or is absent for) the given node name. -/
theorem matchGuard_iff (s n : String) :
    ((splitN2Dot s).length ≠ 2 ∨ (splitN2Dot s)[1]! ≠ n) ↔ matchIdSuffix s ≠ some n := by
  unfold matchIdSuffix splitN2Dot
  cases h : breakAtDot s.toList with
  | none => simp
  | some pp => simp

/-- A non-empty inbox fails the `len(frame.Inbox) < 1` test. -/
theorem nonempty_inbox_length (s : String) (h : s ≠ "") : ¬ s.length < 1 := by
  simp only [Nat.lt_one_iff]
  intro hc
  apply h
  cases s with
  | mk data =>
    have hd : data = [] := List.length_eq_zero.mp hc
    rw [hd]

/-- Every ResponseWriter handed to `w` during a dispatch is written
through `writeResponse` applied to the originating frame. -/
theorem onRequest_writes (env : Env) (frame : Frame) (res : DispatchResult)
    (h : onRequest env frame = .ok res) :
    ∀ q ∈ res.writes, q.2 = writeResponse env frame q.1 := by
  rcases frame with ⟨fid, ib, nd, ts, payload⟩
  cases payload with
  | responseWriter rw => simp [onRequest, Frame.getRequest] at h
  | unset => simp [onRequest, Frame.getRequest] at h
  | request r =>
    cases r <;> simp only [onRequest, Frame.getRequest] at h <;>
      (try split at h) <;> (try split at h) <;>
      (injection h with h1) <;> rw [← h1] <;> intro q hq <;>
      simp only [List.mem_singleton, List.not_mem_nil] at hq <;>
      rw [hq]

/-- C1  For MatchId and MatchSignal requests, the dispatcher hands the
NOT_FOUND error envelope to the response writer and performs no registry
call exactly when the identifier's namespace suffix differs from the
local node name; otherwise it calls GetMatch (resp. Signal) with the
identifier. -/
theorem matchId_matchSignal_namespace_guard (env : Env) (fid ib nd : String)
    (ts : Nat) (id dat : String) :
    ((onRequest env ⟨fid, ib, nd, ts, .request (.matchId id)⟩ =
        .ok ⟨[], [], [(notFoundRW,
          writeResponse env ⟨fid, ib, nd, ts, .request (.matchId id)⟩ notFoundRW)]⟩)
      ↔ matchIdSuffix id ≠ some env.localName)
    ∧ (matchIdSuffix id = some env.localName →
        ∀ res, onRequest env ⟨fid, ib, nd, ts, .request (.matchId id)⟩ = .ok res →
          res.registryCalls = [RegistryCall.getMatch id])
    ∧ ((onRequest env ⟨fid, ib, nd, ts, .request (.matchSignal id dat)⟩ =
        .ok ⟨[], [], [(notFoundRW,
          writeResponse env ⟨fid, ib, nd, ts, .request (.matchSignal id dat)⟩ notFoundRW)]⟩)
      ↔ matchIdSuffix id ≠ some env.localName)
    ∧ (matchIdSuffix id = some env.localName →
        ∀ res, onRequest env ⟨fid, ib, nd, ts, .request (.matchSignal id dat)⟩ = .ok res →
          res.registryCalls = [RegistryCall.signal id dat]) := by
  by_cases hG : ((splitN2Dot id).length ≠ 2 ∨ (splitN2Dot id)[1]! ≠ env.localName)
  · have hs : matchIdSuffix id ≠ some env.localName := (matchGuard_iff id env.localName).mp hG
    refine ⟨?_, ?_, ?_, ?_⟩
    · simp only [onRequest, Frame.getRequest, if_pos hG]
      exact iff_of_true rfl hs
    · intro hc; exact absurd hc hs
    · simp only [onRequest, Frame.getRequest, if_pos hG]
      exact iff_of_true rfl hs
    · intro hc; exact absurd hc hs
  · have hs : matchIdSuffix id = some env.localName := by
      by_contra hcon
      exact hG ((matchGuard_iff id env.localName).mpr hcon)
    refine ⟨?_, ?_, ?_, ?_⟩
    · simp only [onRequest, Frame.getRequest, if_neg hG]
      refine iff_of_false ?_ (by simp [hs])
      cases env.getMatchRes <;> simp
    · intro _ res hres
      simp only [onRequest, Frame.getRequest, if_neg hG] at hres
      cases henv : env.getMatchRes <;> rw [henv] at hres <;>
        (injection hres with h1; rw [← h1])
    · simp only [onRequest, Frame.getRequest, if_neg hG]
      refine iff_of_false ?_ (by simp [hs])
      cases env.signalRes <;> simp
    · intro _ res hres
      simp only [onRequest, Frame.getRequest, if_neg hG] at hres
      cases henv : env.signalRes <;> rw [henv] at hres <;>
        (injection hres with h1; rw [← h1])

theorem matchId_matchSignal_namespace_guard_witness :
    onRequest envBase ⟨"f", "ib", "n2", 0, .request (.matchId "abc.nX")⟩ =
      .ok ⟨[], [], [(notFoundRW,
        writeResponse envBase ⟨"f", "ib", "n2", 0, .request (.matchId "abc.nX")⟩ notFoundRW)]⟩ :=
  ((matchId_matchSignal_namespace_guard envBase "f" "ib" "n2" 0 "abc.nX" "d").1).mpr (by decide)

/-- C2 counterexample  A MatchJoinAttempt whose match identifier's
namespace suffix (`n2`) differs from the local node name (`n1`) is not
rejected: the Match Registry's JoinAttempt is invoked anyway. -/
theorem matchJoinAttempt_not_guarded :
    matchIdSuffix "m.n2" ≠ some envBase.localName ∧
    Except.map DispatchResult.registryCalls (onRequest envBase frC2) =
      .ok [RegistryCall.joinAttempt uuidNil "n1" uuidNil uuidNil "alice" 0
        "v" "ip" "port" "n2" "md"] := by decide

/-- C2 amended  Only MatchId and MatchSignal reject a namespace-suffix
mismatch before reaching the Match Registry; MatchJoinAttempt,
MatchSendData and MatchState invoke their registry method
unconditionally, whatever the identifier's suffix. -/
theorem match_namespace_guard_scope (env : Env) (fid ib nd : String) (ts : Nat)
    (ja : MatchJoinAttemptMsg) (sd : MatchSendDataMsg) (ms mid dat : String) :
    (∀ res, onRequest env ⟨fid, ib, nd, ts, .request (.matchJoinAttempt ja)⟩ = .ok res →
        res.registryCalls = [RegistryCall.joinAttempt (uuidFromStringOrNil ja.id)
          env.localName (uuidFromStringOrNil ja.userId) (uuidFromStringOrNil ja.sessionId)
          ja.username ja.sessionExpiry ja.vars ja.clientIP ja.clientPort nd ja.metadata])
    ∧ (∀ res, onRequest env ⟨fid, ib, nd, ts, .request (.matchSendData sd)⟩ = .ok res →
        res.registryCalls = [RegistryCall.sendData (uuidFromStringOrNil sd.id)
          env.localName (uuidFromStringOrNil sd.userId) (uuidFromStringOrNil sd.sessionId)
          sd.username sd.fromNode sd.opCode sd.data sd.reliable sd.receiveTime])
    ∧ (∀ res, onRequest env ⟨fid, ib, nd, ts, .request (.matchState ms)⟩ = .ok res →
        res.registryCalls = [RegistryCall.getState (uuidFromStringOrNil ms) env.localName])
    ∧ (matchIdSuffix mid ≠ some env.localName →
        ∀ res, onRequest env ⟨fid, ib, nd, ts, .request (.matchId mid)⟩ = .ok res →
          res.registryCalls = [])
    ∧ (matchIdSuffix mid ≠ some env.localName →
        ∀ res, onRequest env ⟨fid, ib, nd, ts, .request (.matchSignal mid dat)⟩ = .ok res →
          res.registryCalls = []) := by
  refine ⟨?_, ?_, ?_, ?_, ?_⟩
  · intro res hres
    simp only [onRequest, Frame.getRequest] at hres
    injection hres with h1; rw [← h1]
  · intro res hres
    simp only [onRequest, Frame.getRequest] at hres
    injection hres with h1; rw [← h1]
  · intro res hres
    simp only [onRequest, Frame.getRequest] at hres
    cases henv : env.getStateRes with
    | error e => rw [henv] at hres; injection hres with h1; rw [← h1]
    | ok v =>
      obtain ⟨ups, tick, st⟩ := v
      rw [henv] at hres; injection hres with h1; rw [← h1]
  · intro hmm res hres
    have hG : ((splitN2Dot mid).length ≠ 2 ∨ (splitN2Dot mid)[1]! ≠ env.localName) :=
      (matchGuard_iff mid env.localName).mpr hmm
    simp only [onRequest, Frame.getRequest, if_pos hG] at hres
    injection hres with h1; rw [← h1]
  · intro hmm res hres
    have hG : ((splitN2Dot mid).length ≠ 2 ∨ (splitN2Dot mid)[1]! ≠ env.localName) :=
      (matchGuard_iff mid env.localName).mpr hmm
    simp only [onRequest, Frame.getRequest, if_pos hG] at hres
    injection hres with h1; rw [← h1]

theorem match_namespace_guard_scope_witness :
    resC2.registryCalls = [RegistryCall.joinAttempt uuidNil "n1" uuidNil uuidNil
      "alice" 0 "v" "ip" "port" "n2" "md"] :=
  (match_namespace_guard_scope envBase "f1" "ib" "n2" 0 jaC2
    ⟨"x", "u", "s", "b", "fn", 1, [], true, 2⟩ "m" "m" "d").1 resC2 (by decide)

/-- C3 counterexample  For a Ping frame whose originating node is unknown
to the membership directory, the response delivery fails with the
Aborted error, yet the dispatch entry point completes normally: the
delivery error appears only inside the write outcome of the trace, and
the entry point's own result carries no error — the Go `onRequest`
returns nothing and discards the value returned by `w`. -/
theorem delivery_error_discarded_by_entry_point :
    onRequest envBase ⟨"f0", "ibx", "ghost", 0, .request .ping⟩ =
      .ok ⟨[], [], [(ResponseWriter.pong "PONG",
        ⟨none, none, .error (statusError .aborted "the remote node does not exist")⟩)]⟩ := by
  decide

/-- C3 amended  The response-writer function surfaces delivery failure
synchronously as its own result: when a response is owed it returns ok
exactly when a send was attempted and the transport reported no error,
and every failure (unknown node, serialization, transport) is returned
to its caller inside the dispatcher as an Aborted-class error — which
the dispatch entry point then discards. -/
theorem writer_surfaces_delivery_failure (env : Env) (frame : Frame)
    (rw : ResponseWriter) (hib : frame.inbox ≠ "") :
    ((writeResponse env frame rw).result = .ok () ↔
      ∃ ep b, (writeResponse env frame rw).sendAttempt = some (ep, b) ∧
        env.send ep b = none)
    ∧ (∀ e, (writeResponse env frame rw).result = .error e →
        e.code = StatusCode.aborted) := by
  have hlen : ¬ frame.inbox.length < 1 := nonempty_inbox_length frame.inbox hib
  simp only [writeResponse, if_neg hlen]
  cases hm : env.members frame.node with
  | none => simp [statusError]
  | some ep =>
    cases hmar : env.marshal ⟨env.freshId, frame.inbox, env.localName, env.now,
        .responseWriter rw⟩ with
    | error msg => simp [statusError]
    | ok b =>
      cases hsend : env.send ep b with
      | none =>
        simp [statusError, hsend]
        exact ⟨ep, b, ⟨rfl, rfl⟩, hsend⟩
      | some msg => simp [statusError, hsend]

theorem writer_surfaces_delivery_failure_witness :
    (writeResponse envBase ⟨"f", "ib", "n2", 0, .request .ping⟩
      ResponseWriter.empty).result = Except.ok () :=
  ((writer_surfaces_delivery_failure envBase ⟨"f", "ib", "n2", 0, .request .ping⟩
    ResponseWriter.empty (by decide)).1).mpr ⟨⟨"n2"⟩, [1, 2], by decide, by decide⟩

/-- C4  For every inbound frame with an empty inbox, dispatch constructs
no outbound response frame and attempts no send, whatever the request
kind and whatever the registry outcome. -/
theorem empty_inbox_no_response (env : Env) (frame : Frame) (res : DispatchResult)
    (hib : frame.inbox = "")
    (h : onRequest env frame = .ok res) :
    ∀ q ∈ res.writes, q.2.respFrame = none ∧ q.2.sendAttempt = none := by
  intro q hq
  have hw := onRequest_writes env frame res h q hq
  have hcond : frame.inbox.length < 1 := by rw [hib]; decide
  have hz : writeResponse env frame q.1 = ⟨none, none, .ok ()⟩ := by
    unfold writeResponse
    rw [if_pos hcond]
  rw [hw, hz]
  exact ⟨rfl, rfl⟩

theorem empty_inbox_no_response_witness :
    ((ResponseWriter.pong "PONG", (⟨none, none, Except.ok ()⟩ : WriteOutcome)).2.respFrame = none)
    ∧ ((ResponseWriter.pong "PONG", (⟨none, none, Except.ok ()⟩ : WriteOutcome)).2.sendAttempt = none) :=
  empty_inbox_no_response envBase frC4 resC4 rfl (by decide)
    (ResponseWriter.pong "PONG", ⟨none, none, Except.ok ()⟩) (by decide)

/-- C5  When a response is owed and the membership lookup for the
originating frame's node fails, no response frame is built, no
serialization and no send is attempted, and the response path reports
the Aborted error "the remote node does not exist". -/
theorem absent_member_aborts (env : Env) (frame : Frame) (rw : ResponseWriter)
    (hib : frame.inbox ≠ "") (hm : env.members frame.node = none) :
    writeResponse env frame rw =
      ⟨none, none, .error (statusError .aborted "the remote node does not exist")⟩ := by
  have hlen := nonempty_inbox_length frame.inbox hib
  simp only [writeResponse, if_neg hlen, hm]

theorem absent_member_aborts_witness :
    writeResponse envBase ⟨"f", "ib", "ghost", 0, .request .ping⟩ ResponseWriter.empty =
      ⟨none, none, .error (statusError .aborted "the remote node does not exist")⟩ :=
  absent_member_aborts envBase ⟨"f", "ib", "ghost", 0, .request .ping⟩
    ResponseWriter.empty (by decide) (by decide)

/-- C6  Every emitted response frame is a freshly constructed Frame: its
id is the freshly generated identifier (distinct from the originating
frame's id whenever the generator is fresh), its inbox copies the
originating frame's inbox, its node is the local node name, its
timestamp is the current time, and its payload is the ResponseWriter
variant. -/
theorem response_frame_shape (env : Env) (frame : Frame) (rw : ResponseWriter)
    (f : Frame) (hfresh : env.freshId ≠ frame.id)
    (h : (writeResponse env frame rw).respFrame = some f) :
    f = ⟨env.freshId, frame.inbox, env.localName, env.now,
      FramePayload.responseWriter rw⟩ ∧ f.id ≠ frame.id := by
  by_cases hlen : frame.inbox.length < 1
  · simp only [writeResponse, if_pos hlen] at h
    cases h
  · simp only [writeResponse, if_neg hlen] at h
    split at h
    · cases h
    · split at h
      all_goals try split at h
      all_goals {
        have hf : f = ⟨env.freshId, frame.inbox, env.localName, env.now,
            FramePayload.responseWriter rw⟩ := (Option.some.inj h).symm
        subst hf
        exact ⟨rfl, hfresh⟩ }

theorem response_frame_shape_witness :
    (⟨"fresh-id", "ib", "n1", 7, FramePayload.responseWriter ResponseWriter.empty⟩ : Frame) =
      ⟨envBase.freshId, "ib", envBase.localName, envBase.now,
        FramePayload.responseWriter ResponseWriter.empty⟩ ∧
    (⟨"fresh-id", "ib", "n1", 7, FramePayload.responseWriter ResponseWriter.empty⟩ : Frame).id ≠ "f" :=
  response_frame_shape envBase ⟨"f", "ib", "n2", 0, .request .ping⟩
    ResponseWriter.empty
    ⟨"fresh-id", "ib", "n1", 7, FramePayload.responseWriter ResponseWriter.empty⟩
    (by decide) (by decide)

/-- C7  A Ping request always hands a Pong response carrying the literal
string PONG to the response writer, independent of every other field of
the frame and of the environment. -/
theorem ping_yields_pong (env : Env) (fid ib nd : String) (ts : Nat) :
    onRequest env ⟨fid, ib, nd, ts, .request .ping⟩ =
      .ok ⟨[], [], [(ResponseWriter.pong "PONG",
        writeResponse env ⟨fid, ib, nd, ts, .request .ping⟩
          (ResponseWriter.pong "PONG"))]⟩ := rfl

/-- C8  A PartyJoinRequest is dispatched to the Party Registry with a
Presence whose Stream and Meta are taken from the first element of the
repeated wire collections when non-empty and left unset when empty, and
an empty collection by itself causes no error: when the registry
succeeds, the only response written is the join-result payload. -/
theorem party_join_presence_from_wire (env : Env) (fid ib nd : String) (ts : Nat)
    (pid : String) (p : PbPresence) (res : DispatchResult)
    (h : onRequest env ⟨fid, ib, nd, ts, .request (.partyJoinRequest pid p)⟩ = .ok res) :
    res.registryCalls = [RegistryCall.partyJoinRequest (uuidFromStringOrNil pid)
      env.localName (buildPresence p)]
    ∧ (buildPresence p).stream = p.stream.head?.map pb2PresenceStream
    ∧ (buildPresence p).meta = p.meta.head?.map pb2PresenceMeta
    ∧ (buildPresence p).id = ⟨p.node, uuidFromStringOrNil p.sessionID⟩
    ∧ (buildPresence p).userID = uuidFromStringOrNil p.userID
    ∧ (∀ b, env.partyJoinRequestRes = .ok b →
        res.writes.map Prod.fst = [ResponseWriter.partyJoinRequest b]) := by
  have hcalls : res.registryCalls = [RegistryCall.partyJoinRequest
      (uuidFromStringOrNil pid) env.localName (buildPresence p)] := by
    simp only [onRequest, Frame.getRequest] at h
    split at h <;> (injection h with h1) <;> rw [← h1]
  have hwr : ∀ b, env.partyJoinRequestRes = .ok b →
      res.writes.map Prod.fst = [ResponseWriter.partyJoinRequest b] := by
    intro b hb
    simp only [onRequest, Frame.getRequest, hb] at h
    injection h with h1
    rw [← h1]
    simp
  refine ⟨hcalls, ?_, ?_, ?_, ?_, hwr⟩
  · cases hs : p.stream <;> cases hm : p.meta <;>
      simp [buildPresence, hs, hm]
  · cases hs : p.stream <;> cases hm : p.meta <;>
      simp [buildPresence, hs, hm]
  · cases hs : p.stream <;> cases hm : p.meta <;>
      simp [buildPresence, hs, hm]
  · cases hs : p.stream <;> cases hm : p.meta <;>
      simp [buildPresence, hs, hm]

theorem party_join_presence_from_wire_witness :
    resC8.registryCalls = [RegistryCall.partyJoinRequest uuidNil "n1"
      (buildPresence pC8)] ∧
    (buildPresence pC8).stream = pC8.stream.head?.map pb2PresenceStream :=
  have hC := party_join_presence_from_wire envBase "f" "ib" "n2" 0 "pid" pC8 resC8 (by decide)
  ⟨hC.1, hC.2.1⟩

/-- C9  The dispatcher is only safe when the frame's payload is a
Request: a ResponseWriter or unset payload makes the entry point
dereference the nil Request (a runtime fault), and a Request payload
never faults. -/
theorem request_payload_precondition (env : Env) (frame : Frame) :
    (∀ rw, frame.payload = .responseWriter rw →
        onRequest env frame = .error .nilPointerDereference)
    ∧ (frame.payload = .unset →
        onRequest env frame = .error .nilPointerDereference)
    ∧ (∀ r, frame.payload = .request r → ∃ res, onRequest env frame = .ok res) := by
  rcases frame with ⟨fid, ib, nd, ts, payload⟩
  refine ⟨?_, ?_, ?_⟩
  · intro rw hp; cases hp; rfl
  · intro hp; cases hp; rfl
  · intro r hp
    cases hp
    cases r <;> simp only [onRequest, Frame.getRequest] <;>
      (try split) <;> (try split) <;> exact ⟨_, rfl⟩

theorem request_payload_precondition_witness :
    onRequest envBase ⟨"f", "ib", "n2", 0, .responseWriter ResponseWriter.empty⟩ =
      .error .nilPointerDereference :=
  (request_payload_precondition envBase
    ⟨"f", "ib", "n2", 0, .responseWriter ResponseWriter.empty⟩).1
    ResponseWriter.empty rfl

/-- C10  A string that is not a valid UUID never makes dispatch fail or
produce an error envelope by itself: `uuid.FromStringOrNil` silently
maps it to the nil UUID, the registry is invoked with the nil UUID
(shown for a MatchState match id and for a PartyJoinRequest party id,
user id and session id), and an error envelope is written only when the
registry itself reports an error. -/
theorem invalid_uuid_is_silent (env : Env) (s fid ib nd pnode : String) (ts : Nat)
    (streams : List PbPresenceStream) (metas : List PbPresenceMeta)
    (h : uuidFromString s = none) :
    uuidFromStringOrNil s = uuidNil
    ∧ (∀ res, onRequest env ⟨fid, ib, nd, ts, .request (.matchState s)⟩ = .ok res →
        res.registryCalls = [RegistryCall.getState uuidNil env.localName]
        ∧ (∀ v, env.getStateRes = .ok v →
            ∀ e, ResponseWriter.envelope e ∉ res.writes.map Prod.fst))
    ∧ (∀ res, onRequest env
          ⟨fid, ib, nd, ts, .request (.partyJoinRequest s ⟨s, s, pnode, streams, metas⟩)⟩ = .ok res →
        res.registryCalls = [RegistryCall.partyJoinRequest uuidNil env.localName
          (buildPresence ⟨s, s, pnode, streams, metas⟩)]
        ∧ (buildPresence ⟨s, s, pnode, streams, metas⟩).userID = uuidNil
        ∧ (buildPresence ⟨s, s, pnode, streams, metas⟩).id.sessionID = uuidNil
        ∧ (∀ b, env.partyJoinRequestRes = .ok b →
            ∀ e, ResponseWriter.envelope e ∉ res.writes.map Prod.fst)) := by
  have hnil : uuidFromStringOrNil s = uuidNil := by
    simp [uuidFromStringOrNil, h]
  refine ⟨hnil, ?_, ?_⟩
  · intro res hres
    simp only [onRequest, Frame.getRequest, hnil] at hres
    constructor
    · split at hres <;> (injection hres with h1) <;> rw [← h1]
    · intro v hv
      rw [hv] at hres
      injection hres with h1
      rw [← h1]
      simp
  · intro res hres
    simp only [onRequest, Frame.getRequest, hnil] at hres
    refine ⟨?_, ?_, ?_, ?_⟩
    · split at hres <;> (injection hres with h1) <;> rw [← h1]
    · cases hs : streams <;> cases hm : metas <;>
        simp [buildPresence, hnil, hs, hm]
    · cases hs : streams <;> cases hm : metas <;>
        simp [buildPresence, hnil, hs, hm]
    · intro b hb
      rw [hb] at hres
      injection hres with h1
      rw [← h1]
      simp

theorem invalid_uuid_is_silent_witness :
    uuidFromStringOrNil "not-a-uuid" = uuidNil ∧
    resC10.registryCalls = [RegistryCall.getState uuidNil "n1"] :=
  have hC := invalid_uuid_is_silent envBase "not-a-uuid" "f" "ib" "n2" "pn" 0 [] [] (by decide)
  ⟨hC.1, ((hC.2.1) resC10 (by decide)).1⟩
